import Mathlib

/-!
Verification of the VanillaJS page script (src/script.js).

The script is browser glue code: a modal dialog component over a singleton
overlay element, a localStorage wrapper with JSON encode/decode, a random
gray-color generator, and a color side effect.  We shallowly embed the
relevant parts as pure Lean functions over explicit state:

* `ModalState` carries the page configuration resolved at module load
  (whether the overlay root `.modal` and its content slot `.modal__content`
  are present, and which `<template>` elements exist) together with the
  mutable observables: the `modal--active` class on the overlay, the
  contents of the content slot, the document scroll-lock flag
  (`document.body.style.overflow === 'hidden'`), and the console log.
* Fallible DOM operations that can throw a TypeError (a `querySelector`
  call on a `null` context) are modelled by returning the state reached at
  the throw point together with a Boolean `threw` flag.
* `localStorage` is a partial map from keys to raw strings; `JSON.stringify`
  and `JSON.parse` are modelled for the JSON subset the script can store:
  strings, `null`, booleans and (signed, decimal, exponent-free) integers.
  Fractional numbers, arrays and objects are not modelled; `\u` escape
  sequences inside string literals are not modelled (the script only ever
  stores plain hex color strings).
* `Math.random()` is modelled as an exact rational in `[0,1)`.  The claims
  proved about `getRandomGray` (intensity range and output shape) are
  insensitive to the difference between exact and IEEE-754 arithmetic,
  because `Math.floor(r * 255)` lands in `{0, ..., 254}` either way.
-/

/-- Markup fragment, as cloned from a `<template>` element: which slots and
buttons it contains (`.modal__title`, `.modal__text`, `.modal__button`,
`.modal__button--cancel`, `.modal__button--confirm`), and the current text
of the two text slots. -/
structure Frag where
  hasTitle : Bool
  hasText : Bool
  hasButton : Bool
  hasCancel : Bool
  hasConfirm : Bool
  title : String
  text : String
deriving DecidableEq, Repr

/-- Contents of the modal content slot (`.modal__content`): empty after
`DOM.clear`, raw markup after `DOM.setHTML`, or an appended fragment after
`DOM.append`. -/
inductive SlotVal where
  | empty : SlotVal
  | html (h : String) : SlotVal
  | frag (f : Frag) : SlotVal
deriving DecidableEq, Repr

/-- Argument to `Modal.open`: a string, a DocumentFragment or HTMLElement,
or anything else (which `open` ignores after clearing the slot). -/
inductive MContent where
  | str (h : String) : MContent
  | node (f : Frag) : MContent
  | other : MContent
deriving DecidableEq, Repr

/-- State of the modal component together with the page configuration that
`Modal.$` resolved at module load.  `present` is `Modal.$.element !== null`,
`contentPresent` is `Modal.$.content !== null`; `alertTemplate` and
`confirmTemplate` are the cloneable contents of the `modal-alert` and
`modal-confirm` templates when those elements exist.  `active` is whether
the overlay carries the `modal--active` class, `slot` the contents of the
content slot, `scrollLock` whether `document.body.style.overflow` is
`'hidden'`, and `log` the console output. -/
structure ModalState where
  present : Bool
  contentPresent : Bool
  alertTemplate : Option Frag
  confirmTemplate : Option Frag
  active : Bool
  slot : SlotVal
  scrollLock : Bool
  log : List String
deriving DecidableEq, Repr

/-- Effect of `Modal.open` on the content slot: `DOM.clear` then either
`DOM.setHTML` (string), `DOM.append` (fragment/element) or nothing.  All
three DOM helpers are no-ops when the slot element is absent. -/
def openSlot (contentPresent : Bool) (old : SlotVal) (c : MContent) : SlotVal :=
  if contentPresent = false then old
  else
    match c with
    | MContent.str h => SlotVal.html h
    | MContent.node f => SlotVal.frag f
    | MContent.other => SlotVal.empty

/-- Translation of `Modal.open` (script.js:346-363): bail out with a log when
the overlay root is absent; otherwise clear and refill the content slot, add
the `modal--active` class, lock scrolling, and log. -/
def modalOpen (c : MContent) (s : ModalState) : ModalState :=
  if s.present = false then
    { s with log := s.log ++ ["Modal not initialized"] }
  else
    { s with
      slot := openSlot s.contentPresent s.slot c
      active := true
      scrollLock := true
      log := s.log ++ ["Modal opened"] }

/-- Translation of `Modal.close` (script.js:367-372): silently return when the
overlay root is absent; otherwise remove the `modal--active` class, unlock
scrolling, and log. -/
def modalClose (s : ModalState) : ModalState :=
  if s.present = false then s
  else
    { s with
      active := false
      scrollLock := false
      log := s.log ++ ["Modal closed"] }

/-- Translation of `Modal.isOpen` (script.js:376-378): the overlay element is
non-null and carries the `modal--active` class (`DOM.hasClass` returns
`false` on a null element).  The JS function returns a truthy element or
`false`; we model truthiness as `Bool`. -/
def modalIsOpen (s : ModalState) : Bool :=
  s.present && s.active

/-- Calls considered by the isOpen invariant: the external `Modal.open` and
`Modal.close` entry points. -/
inductive ModalCall where
  | mopen (c : MContent) : ModalCall
  | mclose : ModalCall
deriving DecidableEq, Repr

/-- Run one `Modal.open`/`Modal.close` call. -/
def stepCall (c : ModalCall) (s : ModalState) : ModalState :=
  match c with
  | ModalCall.mopen cc => modalOpen cc s
  | ModalCall.mclose => modalClose s

/-- Run a sequence of `Modal.open`/`Modal.close` calls, left to right. -/
def runCalls (s : ModalState) : List ModalCall → ModalState
  | [] => s
  | c :: rest => runCalls (stepCall c s) rest

/-- Whether the most recent call of a sequence is an `open` (false for the
empty sequence). -/
def lastCallIsOpen : List ModalCall → Bool
  | [] => false
  | [ModalCall.mopen _] => true
  | [ModalCall.mclose] => false
  | _ :: c :: rest => lastCallIsOpen (c :: rest)

theorem present_stepCall (c : ModalCall) (s : ModalState) :
    (stepCall c s).present = s.present := by
  cases c <;> cases hp : s.present <;>
    simp [stepCall, modalOpen, modalClose, hp]

theorem present_runCalls (calls : List ModalCall) (s : ModalState) :
    (runCalls s calls).present = s.present := by
  induction calls generalizing s with
  | nil => rfl
  | cons c rest ih => rw [runCalls, ih, present_stepCall]

theorem isOpen_runCalls_nonempty (c : ModalCall) (calls : List ModalCall)
    (s : ModalState) :
    modalIsOpen (runCalls s (c :: calls)) =
      (s.present && lastCallIsOpen (c :: calls)) := by
  induction calls generalizing c s with
  | nil =>
    cases c with
    | mopen cc =>
      cases hp : s.present <;>
        simp [runCalls, stepCall, modalOpen, modalIsOpen, lastCallIsOpen, hp]
    | mclose =>
      cases hp : s.present <;>
        simp [runCalls, stepCall, modalClose, modalIsOpen, lastCallIsOpen, hp]
  | cons c2 rest ih =>
    have h1 : runCalls s (c :: c2 :: rest) = runCalls (stepCall c s) (c2 :: rest) := rfl
    rw [h1, ih c2 (stepCall c s), present_stepCall]
    cases c <;> rfl

/-- Translation of `Modal.alert` (script.js:382-398).  `DOM.getTemplate`
(script.js:249-256) logs `Template modal-alert not found` and returns null
when the template element is missing, in which case `alert` aborts.
Otherwise the cloned fragment is filled (`content.querySelector(...)` on a
missing slot yields null and the `.textContent` assignment throws a
TypeError), `Modal.open` runs, and finally
`DOM.get('.modal__button', Modal.$.content)` throws a TypeError when
`Modal.$.content` is null, because `DOM.get` calls `querySelector` on the
given context.  Listener wiring on the found button is not observable state
here.  The Boolean result records whether the call threw. -/
def modalAlert (title msg : String) (s : ModalState) : ModalState × Bool :=
  match s.alertTemplate with
  | none => ({ s with log := s.log ++ ["Template modal-alert not found"] }, false)
  | some tpl =>
    if tpl.hasTitle = false then (s, true)
    else if tpl.hasText = false then (s, true)
    else
      let s2 := modalOpen (MContent.node { tpl with title := title, text := msg }) s
      if s2.contentPresent = false then (s2, true)
      else (s2, false)

/-- Translation of `Modal.confirm` (script.js:402-426): same shape as
`alert` with the `modal-confirm` template; the first of the two
`DOM.get(..., Modal.$.content)` lookups throws when `Modal.$.content` is
null.  The cancel/confirm listener wiring is not observable state here. -/
def modalConfirm (title msg : String) (s : ModalState) : ModalState × Bool :=
  match s.confirmTemplate with
  | none => ({ s with log := s.log ++ ["Template modal-confirm not found"] }, false)
  | some tpl =>
    if tpl.hasTitle = false then (s, true)
    else if tpl.hasText = false then (s, true)
    else
      let s2 := modalOpen (MContent.node { tpl with title := title, text := msg }) s
      if s2.contentPresent = false then (s2, true)
      else (s2, false)

/-- Modal operations for state-trace invariants: the public entry points of
the component. -/
inductive ModalOp where
  | oopen (c : MContent) : ModalOp
  | oclose : ModalOp
  | oalert (t m : String) : ModalOp
  | oconfirm (t m : String) : ModalOp
deriving DecidableEq, Repr

/-- Run one modal operation; for `alert`/`confirm` the state is the one
reached even if the call threw (an uncaught exception in a handler leaves
the DOM mutations that already happened in place). -/
def stepOp (op : ModalOp) (s : ModalState) : ModalState :=
  match op with
  | ModalOp.oopen c => modalOpen c s
  | ModalOp.oclose => modalClose s
  | ModalOp.oalert t m => (modalAlert t m s).1
  | ModalOp.oconfirm t m => (modalConfirm t m s).1

/-- Run a sequence of modal operations, left to right. -/
def runOps (s : ModalState) : List ModalOp → ModalState
  | [] => s
  | op :: rest => runOps (stepOp op s) rest

theorem scrollLock_modalOpen (c : MContent) (s : ModalState)
    (h : s.scrollLock = modalIsOpen s) :
    (modalOpen c s).scrollLock = modalIsOpen (modalOpen c s) := by
  cases hp : s.present with
  | false =>
    simp only [modalOpen, hp]
    simpa [modalIsOpen, hp] using h
  | true => simp [modalOpen, modalIsOpen, hp]

theorem scrollLock_stepOp (op : ModalOp) (s : ModalState)
    (h : s.scrollLock = modalIsOpen s) :
    (stepOp op s).scrollLock = modalIsOpen (stepOp op s) := by
  cases op with
  | oopen c => exact scrollLock_modalOpen c s h
  | oclose =>
    cases hp : s.present with
    | false =>
      simp only [stepOp, modalClose, hp]
      simpa [modalIsOpen, hp] using h
    | true => simp [stepOp, modalClose, modalIsOpen, hp]
  | oalert t m =>
    show (modalAlert t m s).1.scrollLock = modalIsOpen (modalAlert t m s).1
    cases ht : s.alertTemplate with
    | none => simpa [modalAlert, ht, modalIsOpen] using h
    | some tpl =>
      cases h1 : tpl.hasTitle <;> cases h2 : tpl.hasText <;>
        simp [modalAlert, ht, h1, h2, modalIsOpen] <;>
        first
        | simpa [modalIsOpen] using h
        | (split <;> exact scrollLock_modalOpen _ s h)
  | oconfirm t m =>
    show (modalConfirm t m s).1.scrollLock = modalIsOpen (modalConfirm t m s).1
    cases ht : s.confirmTemplate with
    | none => simpa [modalConfirm, ht, modalIsOpen] using h
    | some tpl =>
      cases h1 : tpl.hasTitle <;> cases h2 : tpl.hasText <;>
        simp [modalConfirm, ht, h1, h2, modalIsOpen] <;>
        first
        | simpa [modalIsOpen] using h
        | (split <;> exact scrollLock_modalOpen _ s h)

theorem scrollLock_runOps (ops : List ModalOp) (s : ModalState)
    (h : s.scrollLock = modalIsOpen s) :
    (runOps s ops).scrollLock = modalIsOpen (runOps s ops) := by
  induction ops generalizing s with
  | nil => exact h
  | cons op rest ih => exact ih (stepOp op s) (scrollLock_stepOp op s h)

/-- Page nodes relevant to the background-click handler: the overlay root
(`.modal`), its descendants, the body, and arbitrary other nodes. -/
inductive DomNode where
  | overlay : DomNode
  | container : DomNode
  | contentSlot : DomNode
  | closeButton : DomNode
  | body : DomNode
  | other (n : Nat) : DomNode
deriving DecidableEq, Repr

/-- Value of `Modal.$.element`, resolved by `DOM.get('.modal')` at module
load: the overlay root when present, `null` otherwise. -/
def modalElementOf (s : ModalState) : Option DomNode :=
  if s.present then some DomNode.overlay else none

/-- Translation of the background-click handler registered by `Modal.init`
(script.js:333-335): `if (e.target === Modal.$.element) Modal.close()`.
The Boolean result records whether `Modal.close` was called. -/
def bgClickHandler (target : DomNode) (s : ModalState) : ModalState × Bool :=
  if some target = modalElementOf s then (modalClose s, true) else (s, false)

/-- Fragment with every slot and button the modal templates can contain. -/
def okFrag : Frag :=
  ⟨true, true, true, true, true, "", ""⟩

/-- Normally configured page: overlay root, content slot and both templates
present, modal closed, scrolling unlocked. -/
def pageState : ModalState :=
  ⟨true, true, some okFrag, some okFrag, false, SlotVal.empty, false, []⟩

/-- Misconfigured page: the overlay root and its content slot are absent,
but both dialog templates exist. -/
def bareState : ModalState :=
  ⟨false, false, some okFrag, some okFrag, false, SlotVal.empty, false, []⟩

/-- Page whose overlay exists but whose dialog templates are missing. -/
def noTplState : ModalState :=
  ⟨true, true, none, none, false, SlotVal.empty, false, []⟩

/-- Claim C1: for every sequence of `Modal.open`/`Modal.close` calls starting
from a state in which the overlay does not carry the active class,
`Modal.isOpen()` returns true exactly when the most recent call was `open`;
when the overlay root element is absent, it is always false. -/
theorem modal_isOpen_tracks_last_call (s : ModalState) (calls : List ModalCall)
    (h : s.active = false) :
    modalIsOpen (runCalls s calls) = (s.present && lastCallIsOpen calls) := by
  cases calls with
  | nil => simp [runCalls, modalIsOpen, lastCallIsOpen, h]
  | cons c rest => exact isOpen_runCalls_nonempty c rest s

theorem modal_isOpen_tracks_last_call_witness :
    pageState.active = false ∧
    modalIsOpen (runCalls pageState
        [ModalCall.mopen MContent.other, ModalCall.mclose,
         ModalCall.mopen (MContent.str "<p>hi</p>")]) =
      (pageState.present && lastCallIsOpen
        [ModalCall.mopen MContent.other, ModalCall.mclose,
         ModalCall.mopen (MContent.str "<p>hi</p>")]) :=
  ⟨rfl, modal_isOpen_tracks_last_call pageState _ rfl⟩

/-- Claim C4, counterexample: on a page whose overlay root and content slot
are absent but whose `modal-alert` template exists, `Modal.alert` throws a
TypeError (`DOM.get('.modal__button', Modal.$.content)` calls
`querySelector` on `null`), and `Modal.close` is a silent no-op producing no
diagnostic log — contradicting that every Modal operation degrades to a
no-op plus a diagnostic log and never throws. -/
theorem modal_absent_overlay_can_throw :
    (modalAlert "Success!" "The color has been changed." bareState).2 = true ∧
    modalClose bareState = bareState := by
  constructor
  · rfl
  · rfl

/-- Claim C4, amended: when the overlay root element and its content slot are
absent, `Modal.open` is a no-op plus a diagnostic log, `Modal.close` and
`Modal.isOpen` are silent no-ops (`isOpen` returns false), and
`Modal.alert`/`Modal.confirm` degrade to a no-op plus a diagnostic when
their content template is also missing — but when the template is present
and well-formed they throw a TypeError on the null content-slot query. -/
theorem modal_absent_overlay_behavior (c : MContent) (t m : String)
    (s : ModalState) (hp : s.present = false) (hc : s.contentPresent = false) :
    modalOpen c s = { s with log := s.log ++ ["Modal not initialized"] }
    ∧ modalClose s = s
    ∧ modalIsOpen s = false
    ∧ (s.alertTemplate = none →
        modalAlert t m s =
          ({ s with log := s.log ++ ["Template modal-alert not found"] }, false))
    ∧ (s.confirmTemplate = none →
        modalConfirm t m s =
          ({ s with log := s.log ++ ["Template modal-confirm not found"] }, false))
    ∧ (∀ tpl, s.alertTemplate = some tpl → tpl.hasTitle = true →
        tpl.hasText = true → (modalAlert t m s).2 = true)
    ∧ (∀ tpl, s.confirmTemplate = some tpl → tpl.hasTitle = true →
        tpl.hasText = true → (modalConfirm t m s).2 = true) := by
  refine ⟨?_, ?_, ?_, ?_, ?_, ?_, ?_⟩
  · simp [modalOpen, hp]
  · simp [modalClose, hp]
  · simp [modalIsOpen, hp]
  · intro h; simp [modalAlert, h]
  · intro h; simp [modalConfirm, h]
  · intro tpl h h1 h2; simp [modalAlert, h, h1, h2, modalOpen, hp, hc]
  · intro tpl h h1 h2; simp [modalConfirm, h, h1, h2, modalOpen, hp, hc]

theorem modal_absent_overlay_behavior_witness :
    modalOpen MContent.other bareState =
      { bareState with log := bareState.log ++ ["Modal not initialized"] }
    ∧ modalClose bareState = bareState
    ∧ modalIsOpen bareState = false
    ∧ (bareState.alertTemplate = none →
        modalAlert "t" "m" bareState =
          ({ bareState with
              log := bareState.log ++ ["Template modal-alert not found"] }, false))
    ∧ (bareState.confirmTemplate = none →
        modalConfirm "t" "m" bareState =
          ({ bareState with
              log := bareState.log ++ ["Template modal-confirm not found"] }, false))
    ∧ (∀ tpl, bareState.alertTemplate = some tpl → tpl.hasTitle = true →
        tpl.hasText = true → (modalAlert "t" "m" bareState).2 = true)
    ∧ (∀ tpl, bareState.confirmTemplate = some tpl → tpl.hasTitle = true →
        tpl.hasText = true → (modalConfirm "t" "m" bareState).2 = true) :=
  modal_absent_overlay_behavior MContent.other "t" "m" bareState rfl rfl

/-- Claim C5: `Modal.close()` is idempotent on the observable state — for
every state, closing twice leaves the same overlay visibility class,
scroll-lock flag and slot contents as closing once. -/
theorem modal_close_idempotent (s : ModalState) :
    (modalClose (modalClose s)).active = (modalClose s).active
    ∧ (modalClose (modalClose s)).scrollLock = (modalClose s).scrollLock
    ∧ (modalClose (modalClose s)).slot = (modalClose s).slot := by
  cases hp : s.present <;> simp [modalClose, hp]

/-- Claim C6: `Modal.close()` releases the scroll-lock flag whenever the
overlay element exists, and along every sequence of modal operations the
scroll-lock flag equals `isOpen` — so background scrolling is suspended
exactly while the modal is open. -/
theorem modal_scrollLock_released_and_invariant :
    (∀ s : ModalState, s.present = true → (modalClose s).scrollLock = false)
    ∧ (∀ (s : ModalState) (ops : List ModalOp), s.scrollLock = modalIsOpen s →
        (runOps s ops).scrollLock = modalIsOpen (runOps s ops)) :=
  ⟨fun s hp => by simp [modalClose, hp],
   fun s ops h => scrollLock_runOps ops s h⟩

theorem modal_scrollLock_released_and_invariant_witness :
    (modalClose pageState).scrollLock = false ∧
    (runOps pageState
        [ModalOp.oopen MContent.other, ModalOp.oalert "a" "b",
         ModalOp.oclose]).scrollLock =
      modalIsOpen (runOps pageState
        [ModalOp.oopen MContent.other, ModalOp.oalert "a" "b",
         ModalOp.oclose]) :=
  ⟨modal_scrollLock_released_and_invariant.1 pageState rfl,
   modal_scrollLock_released_and_invariant.2 pageState _ rfl⟩

/-- Claim C7: when the requested content template is missing, `Modal.alert`
and `Modal.confirm` emit a diagnostic and abort, leaving the overlay
visibility class, the content-slot contents and the scroll-lock flag
unchanged, and they do not throw. -/
theorem modal_missing_template_aborts (t m : String) (s : ModalState) :
    (s.alertTemplate = none →
      (modalAlert t m s).1.active = s.active
      ∧ (modalAlert t m s).1.slot = s.slot
      ∧ (modalAlert t m s).1.scrollLock = s.scrollLock
      ∧ (modalAlert t m s).1.log = s.log ++ ["Template modal-alert not found"]
      ∧ (modalAlert t m s).2 = false)
    ∧ (s.confirmTemplate = none →
      (modalConfirm t m s).1.active = s.active
      ∧ (modalConfirm t m s).1.slot = s.slot
      ∧ (modalConfirm t m s).1.scrollLock = s.scrollLock
      ∧ (modalConfirm t m s).1.log = s.log ++ ["Template modal-confirm not found"]
      ∧ (modalConfirm t m s).2 = false) := by
  constructor
  · intro h; simp [modalAlert, h]
  · intro h; simp [modalConfirm, h]

theorem modal_missing_template_aborts_witness :
    ((modalAlert "T" "M" noTplState).1.active = noTplState.active
      ∧ (modalAlert "T" "M" noTplState).1.slot = noTplState.slot
      ∧ (modalAlert "T" "M" noTplState).1.scrollLock = noTplState.scrollLock
      ∧ (modalAlert "T" "M" noTplState).1.log =
          noTplState.log ++ ["Template modal-alert not found"]
      ∧ (modalAlert "T" "M" noTplState).2 = false)
    ∧ ((modalConfirm "T" "M" noTplState).1.active = noTplState.active
      ∧ (modalConfirm "T" "M" noTplState).1.slot = noTplState.slot
      ∧ (modalConfirm "T" "M" noTplState).1.scrollLock = noTplState.scrollLock
      ∧ (modalConfirm "T" "M" noTplState).1.log =
          noTplState.log ++ ["Template modal-confirm not found"]
      ∧ (modalConfirm "T" "M" noTplState).2 = false) :=
  ⟨(modal_missing_template_aborts "T" "M" noTplState).1 rfl,
   (modal_missing_template_aborts "T" "M" noTplState).2 rfl⟩

/-- Claim C8: when the overlay root exists, the background-click handler
registered by `Modal.init` calls `Modal.close` exactly when the click target
is identically the overlay root element; a click on any other node (in
particular any descendant content element) leaves the state untouched and
does not call `close`. -/
theorem modal_background_click_dismissal (s : ModalState) (target : DomNode)
    (hp : s.present = true) :
    ((bgClickHandler target s).2 = true ↔ target = DomNode.overlay)
    ∧ (target ≠ DomNode.overlay → bgClickHandler target s = (s, false))
    ∧ bgClickHandler DomNode.overlay s = (modalClose s, true) := by
  by_cases ht : target = DomNode.overlay <;>
    simp [bgClickHandler, modalElementOf, hp, ht]

theorem modal_background_click_dismissal_witness :
    (((bgClickHandler DomNode.contentSlot pageState).2 = true ↔
        DomNode.contentSlot = DomNode.overlay)
    ∧ (DomNode.contentSlot ≠ DomNode.overlay →
        bgClickHandler DomNode.contentSlot pageState = (pageState, false))
    ∧ bgClickHandler DomNode.overlay pageState = (modalClose pageState, true)) :=
  modal_background_click_dismissal pageState DomNode.contentSlot rfl

/-- JavaScript values the script stores, reads and passes around: strings,
`null`, `undefined`, booleans and (integer) numbers. -/
inductive JsVal where
  | vstr (s : String) : JsVal
  | vnull : JsVal
  | vundef : JsVal
  | vbool (b : Bool) : JsVal
  | vint (n : Int) : JsVal
deriving DecidableEq, Repr

/-- JavaScript truthiness of a `JsVal`: the empty string, `null`,
`undefined`, `false` and `0` are falsy. -/
def jsTruthy : JsVal → Bool
  | JsVal.vstr s => if s = "" then false else true
  | JsVal.vnull => false
  | JsVal.vundef => false
  | JsVal.vbool b => b
  | JsVal.vint n => if n = 0 then false else true

/-- Hexadecimal digit character for `n < 16`, lowercase, as produced by
JavaScript `Number.prototype.toString(16)` (code points 48-57 then 97-102). -/
def hexDigit (n : Nat) : Char :=
  if n < 10 then Char.ofNat (48 + n)
  else if n < 16 then Char.ofNat (87 + n)
  else '0'

/-- JSON escaping of one character, as in `JSON.stringify`: quote and
backslash get a backslash escape, the common control characters get their
short escapes, other control characters get a `\u00XX` escape, and
everything else is unchanged. -/
def jsonEscapeChar (c : Char) : List Char :=
  if c = '"' then ['\\', '"']
  else if c = '\\' then ['\\', '\\']
  else if c = Char.ofNat 10 then ['\\', 'n']
  else if c = Char.ofNat 9 then ['\\', 't']
  else if c = Char.ofNat 13 then ['\\', 'r']
  else if c = Char.ofNat 8 then ['\\', 'b']
  else if c = Char.ofNat 12 then ['\\', 'f']
  else if c.toNat < 32 then
    ['\\', 'u', '0', '0', hexDigit (c.toNat / 16), hexDigit (c.toNat % 16)]
  else [c]

/-- JSON string literal for `s`, as produced by `JSON.stringify(s)`. -/
def jsonQuote (s : String) : String :=
  String.mk ('"' :: (s.toList.map jsonEscapeChar).flatten ++ ['"'])

/-- Model of `JSON.stringify` on the values the script can store.
`JSON.stringify(undefined)` is `undefined`; `localStorage.setItem` then
coerces it to the string `"undefined"`. -/
def jsonStringify : JsVal → String
  | JsVal.vstr s => jsonQuote s
  | JsVal.vnull => "null"
  | JsVal.vundef => "undefined"
  | JsVal.vbool true => "true"
  | JsVal.vbool false => "false"
  | JsVal.vint n => toString n

/-- Unescaping of one JSON escape character (the character after a
backslash); `\u` sequences are not modelled. -/
def jsonUnescapeChar (c : Char) : Option Char :=
  if c = '"' then some '"'
  else if c = '\\' then some '\\'
  else if c = '/' then some '/'
  else if c = 'n' then some (Char.ofNat 10)
  else if c = 't' then some (Char.ofNat 9)
  else if c = 'r' then some (Char.ofNat 13)
  else if c = 'b' then some (Char.ofNat 8)
  else if c = 'f' then some (Char.ofNat 12)
  else none

/-- Parse the remainder of a JSON string literal (everything after the
opening quote), returning its character content. -/
def jsonStringRest : List Char → Option (List Char)
  | [] => none
  | c :: rest =>
    if c = '"' then (if rest = [] then some [] else none)
    else if c = '\\' then
      match rest with
      | [] => none
      | e :: rest2 =>
        match jsonUnescapeChar e, jsonStringRest rest2 with
        | some u, some t => some (u :: t)
        | _, _ => none
    else
      match jsonStringRest rest with
      | some t => some (c :: t)
      | none => none

/-- Parse an unsigned JSON integer literal: a nonempty digit string with no
leading zero (except `0` itself). -/
def jsonDigits (ds : List Char) : Option Nat :=
  if ds = [] then none
  else if ds.all (fun c => c.isDigit) = false then none
  else if ds ≠ ['0'] ∧ ds.head? = some '0' then none
  else some (ds.foldl (fun a c => a * 10 + (c.toNat - 48)) 0)

/-- Model of `JSON.parse` on the subset of JSON the script can encounter:
string literals, `null`, `true`, `false` and integers.  `none` models a
thrown `SyntaxError`.  Fractional or exponent numbers, arrays, objects,
surrounding whitespace and `\u` escapes are not modelled. -/
def jsonParse (raw : String) : Option JsVal :=
  if raw = "null" then some JsVal.vnull
  else if raw = "true" then some (JsVal.vbool true)
  else if raw = "false" then some (JsVal.vbool false)
  else
    match raw.toList with
    | [] => none
    | c :: rest =>
      if c = '"' then
        (jsonStringRest rest).map (fun cs => JsVal.vstr (String.mk cs))
      else if c = '-' then
        (jsonDigits rest).map (fun n => JsVal.vint (-(n : Int)))
      else (jsonDigits (c :: rest)).map (fun n => JsVal.vint (n : Int))

/-- The browser-local key-value store: a partial map from keys to raw
strings. -/
def Store : Type := String → Option String

/-- Translation of `Storage.set` (script.js:84-92): store
`JSON.stringify(value)` under `key` (quota errors are not modelled). -/
def storageSet (st : Store) (key : String) (v : JsVal) : Store :=
  fun k => if k = key then some (jsonStringify v) else st k

/-- Translation of `Storage.get` (script.js:73-81): a missing or empty item
is falsy and yields the default; otherwise the item is parsed, and a parse
error is caught and yields the default. -/
def storageGet (st : Store) (key : String) (dflt : JsVal) : JsVal :=
  match st key with
  | none => dflt
  | some item =>
    if item = "" then dflt
    else
      match jsonParse item with
      | some v => v
      | none => dflt

/-- Translation of the `STATE.mainColor` initializer (script.js:444-446)
with `CONFIG` (script.js:432-439):
`Storage.get('main-color') || '#111'` — the stored value when it is truthy,
else the fixed default. -/
def initMainColor (st : Store) : JsVal :=
  let v := storageGet st "main-color" JsVal.vnull
  if jsTruthy v = true then v else JsVal.vstr "#111"

/-- Characters that JSON escaping leaves unchanged: not a quote, not a
backslash, not a control character.  Every character of a hex color string
qualifies. -/
def jsonPlainChar (c : Char) : Bool :=
  if c = '"' then false
  else if c = '\\' then false
  else if c.toNat < 32 then false
  else true

theorem jsonEscapeChar_plain (c : Char) (h : jsonPlainChar c = true) :
    jsonEscapeChar c = [c] := by
  unfold jsonPlainChar at h
  unfold jsonEscapeChar
  by_cases h1 : c = '"'
  · simp [h1] at h
  · by_cases h2 : c = '\\'
    · simp [h1, h2] at h
    · by_cases h3 : c.toNat < 32
      · simp [h1, h2, h3] at h
      · have hn : ¬ c = Char.ofNat 10 := by
          intro hc; subst hc; simp at h3
        have ht : ¬ c = Char.ofNat 9 := by
          intro hc; subst hc; simp at h3
        have hr : ¬ c = Char.ofNat 13 := by
          intro hc; subst hc; simp at h3
        have hb : ¬ c = Char.ofNat 8 := by
          intro hc; subst hc; simp at h3
        have hf : ¬ c = Char.ofNat 12 := by
          intro hc; subst hc; simp at h3
        simp [h1, h2, h3, hn, ht, hr, hb, hf]

theorem jsonEscape_join_plain (cs : List Char)
    (h : cs.all jsonPlainChar = true) :
    (cs.map jsonEscapeChar).flatten = cs := by
  induction cs with
  | nil => rfl
  | cons c rest ih =>
    rw [List.all_cons, Bool.and_eq_true] at h
    rw [List.map_cons, List.flatten_cons, jsonEscapeChar_plain c h.1, ih h.2]
    rfl

theorem jsonStringRest_plain (cs : List Char)
    (h : cs.all jsonPlainChar = true) :
    jsonStringRest (cs ++ ['"']) = some cs := by
  induction cs with
  | nil => rfl
  | cons c rest ih =>
    rw [List.all_cons, Bool.and_eq_true] at h
    have h1 : ¬ c = '"' := by
      intro hc; subst hc; simp [jsonPlainChar] at h
    have h2 : ¬ c = '\\' := by
      intro hc; subst hc; simp [jsonPlainChar] at h
    rw [List.cons_append, jsonStringRest.eq_def]
    simp [h1, h2, ih h.2]

theorem jsonQuote_head (s : String) :
    (jsonQuote s).data.head? = some '"' := rfl

theorem string_ne_of_head (a b : String) (h : a.data.head? ≠ b.data.head?) :
    a ≠ b :=
  fun e => h (congrArg (fun x => x.data.head?) e)

theorem jsonQuote_ne_empty (s : String) : jsonQuote s ≠ "" :=
  string_ne_of_head _ _ (by rw [jsonQuote_head]; decide)

theorem jsonQuote_ne_null (s : String) : jsonQuote s ≠ "null" :=
  string_ne_of_head _ _ (by rw [jsonQuote_head]; decide)

theorem jsonQuote_ne_true (s : String) : jsonQuote s ≠ "true" :=
  string_ne_of_head _ _ (by rw [jsonQuote_head]; decide)

theorem jsonQuote_ne_false (s : String) : jsonQuote s ≠ "false" :=
  string_ne_of_head _ _ (by rw [jsonQuote_head]; decide)

theorem string_mk_toList (s : String) : String.mk s.toList = s := rfl

theorem jsonParse_quote (C : String) (h : C.toList.all jsonPlainChar = true) :
    jsonParse (jsonQuote C) = some (JsVal.vstr C) := by
  unfold jsonParse
  rw [if_neg (jsonQuote_ne_null C), if_neg (jsonQuote_ne_true C),
    if_neg (jsonQuote_ne_false C)]
  have hl : (jsonQuote C).toList =
      '"' :: ((C.data.map jsonEscapeChar).flatten ++ ['"']) := rfl
  rw [hl, jsonEscape_join_plain C.data h]
  have hr : jsonStringRest (C.data ++ ['"']) = some C.data :=
    jsonStringRest_plain C.data h
  simp [hr]

/-- Claim C2: writing a color string `C` (nonempty, no characters needing a
JSON escape) under the fixed key `main-color` via `Storage.set` and then
running the `STATE.mainColor` initializer yields `C` back; when the stored
item is absent, or is a raw string that `JSON.parse` rejects, the
initializer yields the fixed default `#111`. -/
theorem main_color_round_trip :
    (∀ (st : Store) (C : String), C ≠ "" → C.toList.all jsonPlainChar = true →
      initMainColor (storageSet st "main-color" (JsVal.vstr C)) = JsVal.vstr C)
    ∧ (∀ st : Store, st "main-color" = none →
      initMainColor st = JsVal.vstr "#111")
    ∧ (∀ (st : Store) (raw : String), st "main-color" = some raw →
      jsonParse raw = none → initMainColor st = JsVal.vstr "#111") := by
  refine ⟨?_, ?_, ?_⟩
  · intro st C hne hplain
    have hs : (storageSet st "main-color" (JsVal.vstr C)) "main-color" =
        some (jsonQuote C) := by
      simp [storageSet, jsonStringify]
    unfold initMainColor storageGet
    rw [hs]
    simp only [if_neg (jsonQuote_ne_empty C), jsonParse_quote C hplain]
    simp [jsTruthy, hne]
  · intro st h
    unfold initMainColor storageGet
    rw [h]
    rfl
  · intro st raw h hparse
    unfold initMainColor storageGet
    rw [h]
    by_cases he : raw = ""
    · simp [he, jsTruthy]
    · simp [he, hparse, jsTruthy]

/-- Store with no entries. -/
def emptyStore : Store := fun _ => none

/-- Store holding a corrupted (non-JSON) raw string under the color key. -/
def badStore : Store :=
  fun k => if k = "main-color" then some "#111" else none

theorem main_color_round_trip_witness :
    initMainColor (storageSet emptyStore "main-color"
        (JsVal.vstr "#3a3a3a")) = JsVal.vstr "#3a3a3a"
    ∧ initMainColor emptyStore = JsVal.vstr "#111"
    ∧ initMainColor badStore = JsVal.vstr "#111" :=
  ⟨main_color_round_trip.1 emptyStore "#3a3a3a" (by decide) (by decide),
   main_color_round_trip.2.1 emptyStore rfl,
   main_color_round_trip.2.2 badStore "#111" (by decide) (by decide)⟩

/-- Text `console.log` shows for a `JsVal` (via `Log.white`). -/
def jsLogText : JsVal → String
  | JsVal.vstr s => s
  | JsVal.vnull => "null"
  | JsVal.vundef => "undefined"
  | JsVal.vbool true => "true"
  | JsVal.vbool false => "false"
  | JsVal.vint n => toString n

/-- Application state touched by `Effects.updateMainColor`: whether the
`main` element was found at load, the `STATE.mainColor` field, the main
element's inline `background-color` style, the persistent store, and the
console log. -/
structure AppState where
  mainPresent : Bool
  mainColor : JsVal
  mainBg : Option JsVal
  store : Store
  log : List String

/-- Translation of `Effects.updateMainColor` (script.js:500-506): return
immediately on a falsy argument; otherwise set `STATE.mainColor`, log the
color, set the main element's background (`DOM.setStyle` is a no-op when
the element is absent), and persist under `CONFIG.storage.mainColor`. -/
def updateMainColor (v : JsVal) (s : AppState) : AppState :=
  if jsTruthy v = false then s
  else
    { s with
      mainColor := v
      log := s.log ++ [jsLogText v]
      mainBg := if s.mainPresent then some v else s.mainBg
      store := storageSet s.store "main-color" v }

/-- Claim C9: for each falsy argument — `null`, `undefined`, the empty
string (and the other falsy values `false` and `0`) —
`Effects.updateMainColor` is a complete no-op: `STATE.mainColor`, the main
element's background style and the persisted store entry are all left
unchanged (indeed the entire state is). -/
theorem updateMainColor_falsy_noop (s : AppState) :
    updateMainColor JsVal.vnull s = s
    ∧ updateMainColor JsVal.vundef s = s
    ∧ updateMainColor (JsVal.vstr "") s = s
    ∧ updateMainColor (JsVal.vbool false) s = s
    ∧ updateMainColor (JsVal.vint 0) s = s :=
  ⟨rfl, rfl, rfl, rfl, rfl⟩

/-- Intensity computed by `Pure.getRandomGray` (script.js:470-476):
`Math.floor(r * 255)` where `r` models `Math.random()` as an exact rational
in `[0,1)`. -/
def intensity (r : ℚ) : ℕ :=
  (Int.floor (r * 255)).toNat

/-- Digits of `n` in base 16, lowercase, most significant first, as
produced by `Number.prototype.toString(16)` on a natural number (fuel-based
so that the kernel can evaluate it). -/
def natToHexAux : Nat → Nat → List Char
  | 0, _ => []
  | fuel + 1, n =>
    if n < 16 then [hexDigit n]
    else natToHexAux fuel (n / 16) ++ [hexDigit (n % 16)]

def natToHex (n : Nat) : String :=
  String.mk (natToHexAux (n + 1) n)

/-- JavaScript `String.prototype.padStart(len, c)`. -/
def padStart (s : String) (len : Nat) (c : Char) : String :=
  String.mk (List.replicate (len - s.length) c) ++ s

/-- Translation of `Pure.getRandomGray` (script.js:470-476): two-digit
lowercase hex of the intensity, repeated three times after a `#`. -/
def getRandomGray (r : ℚ) : String :=
  let hex := padStart (natToHex (intensity r)) 2 '0'
  "#" ++ hex ++ hex ++ hex

/-- Lowercase hexadecimal digit. -/
def isLowerHexDigit (c : Char) : Bool :=
  (48 ≤ c.toNat && c.toNat ≤ 57) || (97 ≤ c.toNat && c.toNat ≤ 102)

theorem intensity_lt (r : ℚ) (h1 : r < 1) :
    intensity r < 255 := by
  have hm : r * 255 < 255 := by nlinarith
  have hf : Int.floor (r * 255) < (255 : ℤ) :=
    Int.floor_lt.mpr (by exact_mod_cast hm)
  unfold intensity
  omega

set_option maxRecDepth 8192 in
theorem hexPad_ok : ∀ i : Nat, i < 255 →
    (padStart (natToHex i) 2 '0').length = 2
    ∧ (padStart (natToHex i) 2 '0').toList.all isLowerHexDigit = true
    ∧ "#" ++ padStart (natToHex i) 2 '0' ++ padStart (natToHex i) 2 '0'
        ++ padStart (natToHex i) 2 '0' ≠ "#ffffff" := by
  decide

/-- Claim C3: for every value of the random source in `[0,1)`,
`Pure.getRandomGray` returns `#` followed by exactly six lowercase hex
digits forming three identical two-digit byte pairs — a gray color with
R = G = B. -/
theorem gray_output_shape (r : ℚ) (_h0 : 0 ≤ r) (h1 : r < 1) :
    ∃ h : String, h.length = 2 ∧ h.toList.all isLowerHexDigit = true
      ∧ getRandomGray r = "#" ++ h ++ h ++ h := by
  have hb := hexPad_ok (intensity r) (intensity_lt r h1)
  exact ⟨padStart (natToHex (intensity r)) 2 '0', hb.1, hb.2.1, rfl⟩

theorem gray_output_shape_witness :
    (0 : ℚ) ≤ 1 / 2 ∧ (1 / 2 : ℚ) < 1 ∧
    ∃ h : String, h.length = 2 ∧ h.toList.all isLowerHexDigit = true
      ∧ getRandomGray (1 / 2) = "#" ++ h ++ h ++ h :=
  ⟨by norm_num, by norm_num,
   gray_output_shape (1 / 2) (by norm_num) (by norm_num)⟩

/-- Claim C10: the gray intensity is an integer in `0..254`, so `#ffffff`
(pure white) is never returned, while `#000000` (pure black) is the output
when the random source yields `0`. -/
theorem gray_intensity_range :
    (∀ r : ℚ, 0 ≤ r → r < 1 →
      intensity r ≤ 254 ∧ getRandomGray r ≠ "#ffffff")
    ∧ getRandomGray 0 = "#000000" := by
  constructor
  · intro r hr0 hr1
    have hlt := intensity_lt r hr1
    exact ⟨by omega, (hexPad_ok (intensity r) hlt).2.2⟩
  · have h0 : intensity 0 = 0 := by
      unfold intensity
      norm_num
    show "#" ++ padStart (natToHex (intensity 0)) 2 '0'
        ++ padStart (natToHex (intensity 0)) 2 '0'
        ++ padStart (natToHex (intensity 0)) 2 '0' = "#000000"
    rw [h0]
    decide

theorem gray_intensity_range_witness :
    intensity (1 / 2) ≤ 254 ∧ getRandomGray (1 / 2) ≠ "#ffffff" :=
  gray_intensity_range.1 (1 / 2) (by norm_num) (by norm_num)
